import Mathlib

/-!
Shallow embedding of the WebLookMaxing payment/order reconciliation core.

The definitions below are translated from the TypeScript sources:
* `src/backend/src/routes/webhooks.ts` — PayPal/Nequi webhook routes and handlers;
* the payment controller (`createPayPalPayment`, `createNequiPayment`,
  `capturePayPalPayment`, `refundPayment`);
* the order controller (`createOrder`, `updateOrderStatus`);
* the Mongoose `Payment` and `Order` schemas (status enums, the unique index
  on `Payment.order_id`);
* `PayPalService.getAccessToken` / `NequiService.getAccessToken`;
* `calculateTax` from `src/backend/src/utils/helpers.ts`.

The Mongo collections are modelled as lists of records; `findOne` becomes
`List.find?` and `findOneAndUpdate` maps the update over the matching records.
Dates (`new Date()` / `Date.now()`) are passed in explicitly as integer
milliseconds.  Network calls to the providers are modelled by passing their
result (or failure) as an explicit argument.
-/

namespace WebLook

/-- Payment.status enum of the Mongoose PaymentSchema. -/
inductive PaymentStatus
  | pending
  | completed
  | failed
  | cancelled
  | refunded
  deriving DecidableEq, Repr

/-- Order.status enum of the Mongoose OrderSchema. -/
inductive OrderStatus
  | pending
  | paid
  | cancelled
  | preparing
  | shipped
  | delivered
  | refunded
  deriving DecidableEq, Repr

/-- Payment provider enum (`paypal`, `nequi`, `manual`). -/
inductive Provider
  | paypal
  | nequi
  | manual
  deriving DecidableEq, Repr

/-- A Payment document (fields used by the payment flows). -/
structure Payment where
  id : String
  order_id : String
  provider : Provider
  provider_payment_id : Option String
  status : PaymentStatus
  amount_cop : Nat
  currency : String
  raw_response : String
  confirmed_at : Option Int
  deriving DecidableEq, Repr

/-- An Order document (fields used by the payment flows). -/
structure Order where
  id : String
  user_id : Option String
  subtotal_cop : Nat
  tax_cop : Nat
  total_cop : Nat
  currency : String
  status : OrderStatus
  payment_id : Option String
  payment_status : PaymentStatus
  paid_at : Option Int
  deriving DecidableEq, Repr

/-- The Mongo database state: the `orders` and `payments` collections. -/
structure DB where
  orders : List Order
  payments : List Payment
  deriving DecidableEq, Repr

/-- `Payment.findOne({ provider_payment_id: ref })`. -/
def findPaymentByProviderRef (db : DB) (ref : String) : Option Payment :=
  db.payments.find? fun p => p.provider_payment_id == some ref

/-- `Payment.findOne({ id: pid })`. -/
def findPaymentById (db : DB) (pid : String) : Option Payment :=
  db.payments.find? fun p => p.id == pid

/-- `Order.findOne({ id: oid })`. -/
def findOrderById (db : DB) (oid : String) : Option Order :=
  db.orders.find? fun o => o.id == oid

/-- `Payment.findOneAndUpdate({ id: pid }, upd)`: apply `upd` to the payments
whose `id` matches (ids are unique by schema, so at most one in practice). -/
def updatePayment (db : DB) (pid : String) (upd : Payment → Payment) : DB :=
  { db with payments := db.payments.map fun p => if p.id == pid then upd p else p }

/-- `Order.findOneAndUpdate({ id: oid }, upd)`. -/
def updateOrder (db : DB) (oid : String) (upd : Order → Order) : DB :=
  { db with orders := db.orders.map fun o => if o.id == oid then upd o else o }

/-- The update document `{ status: 'completed', raw_response, confirmed_at }`
passed to `Payment.findOneAndUpdate` by the completed handlers and by
`capturePayPalPayment`. -/
def completedPaymentUpdate (payload : String) (now : Int) (p : Payment) : Payment :=
  { p with status := PaymentStatus.completed, raw_response := payload,
           confirmed_at := some now }

/-- The update document `{ status: 'paid', payment_status: 'completed',
paid_at }` passed to `Order.findOneAndUpdate` by the completed handlers. -/
def paidOrderUpdate (now : Int) (o : Order) : Order :=
  { o with status := OrderStatus.paid, payment_status := PaymentStatus.completed,
           paid_at := some now }

/-- The update document `{ status: 'failed', raw_response }` of the failed
handlers. -/
def failedPaymentUpdate (payload : String) (p : Payment) : Payment :=
  { p with status := PaymentStatus.failed, raw_response := payload }

/-- The update document `{ status: 'cancelled', payment_status: 'failed' }`
of the failed handlers. -/
def cancelledOrderUpdate (o : Order) : Order :=
  { o with status := OrderStatus.cancelled, payment_status := PaymentStatus.failed }

/-- The update document `{ status: 'refunded', raw_response }` of
`refundPayment`. -/
def refundedPaymentUpdate (payload : String) (p : Payment) : Payment :=
  { p with status := PaymentStatus.refunded, raw_response := payload }

/-- The update document `{ status: 'refunded' }` of `refundPayment`. -/
def refundedOrderUpdate (o : Order) : Order :=
  { o with status := OrderStatus.refunded }

/-- The update document `{ payment_id }` of the creation endpoints. -/
def paymentRefOrderUpdate (npid : String) (o : Order) : Order :=
  { o with payment_id := some npid }

/-- The update document `{ status }` of `updateOrderStatus`. -/
def statusOrderUpdate (newStatus : OrderStatus) (o : Order) : Order :=
  { o with status := newStatus }

/-- `handlePayPalPaymentCompleted(resource)` from webhooks.ts: look up the
payment by `resource.id`; if found and still `pending`, mark it `completed`
(storing the raw resource and `confirmed_at`) and mark its order `paid`. -/
def handlePayPalPaymentCompleted (db : DB) (resourceId : String)
    (payload : String) (now : Int) : DB :=
  match findPaymentByProviderRef db resourceId with
  | none => db
  | some payment =>
    if payment.status = PaymentStatus.pending then
      let db1 := updatePayment db payment.id (completedPaymentUpdate payload now)
      updateOrder db1 payment.order_id (paidOrderUpdate now)
    else db

/-- `handlePayPalPaymentFailed(resource)` from webhooks.ts: look up the payment
by `resource.id`; if found, mark it `failed` and its order `cancelled` — note
there is no check of the current payment status here. -/
def handlePayPalPaymentFailed (db : DB) (resourceId : String)
    (payload : String) : DB :=
  match findPaymentByProviderRef db resourceId with
  | none => db
  | some payment =>
    let db1 := updatePayment db payment.id (failedPaymentUpdate payload)
    updateOrder db1 payment.order_id cancelledOrderUpdate

/-- `handleNequiPaymentCompleted(paymentId, webhookData)` from webhooks.ts;
same body as the PayPal variant with the Nequi payment id as the lookup key. -/
def handleNequiPaymentCompleted (db : DB) (paymentId : String)
    (payload : String) (now : Int) : DB :=
  match findPaymentByProviderRef db paymentId with
  | none => db
  | some payment =>
    if payment.status = PaymentStatus.pending then
      let db1 := updatePayment db payment.id (completedPaymentUpdate payload now)
      updateOrder db1 payment.order_id (paidOrderUpdate now)
    else db

/-- `handleNequiPaymentFailed(paymentId, webhookData)` from webhooks.ts;
same body as the PayPal variant, again without any current-status check. -/
def handleNequiPaymentFailed (db : DB) (paymentId : String)
    (payload : String) : DB :=
  match findPaymentByProviderRef db paymentId with
  | none => db
  | some payment =>
    let db1 := updatePayment db payment.id (failedPaymentUpdate payload)
    updateOrder db1 payment.order_id cancelledOrderUpdate

/-- `capturePayPalPayment` (payment controller): after
`paypalService.captureOrder(orderId)` returns, if the capture status is
`COMPLETED`, look up the payment by the PayPal order id and mark it
`completed` and its order `paid` — with no check of the current payment
status.  The provider response status is passed in as `captureStatus`. -/
def capturePayPalPayment (db : DB) (orderId : String) (captureStatus : String)
    (payload : String) (now : Int) : DB :=
  if captureStatus = "COMPLETED" then
    match findPaymentByProviderRef db orderId with
    | none => db
    | some payment =>
      let db1 := updatePayment db payment.id (completedPaymentUpdate payload now)
      updateOrder db1 payment.order_id (paidOrderUpdate now)
  else db

/-- The webhook / capture events that reach the payment-mutating handlers
(after signature verification, in the webhook cases). -/
inductive PaymentEvent
  /-- PayPal `PAYMENT.CAPTURE.COMPLETED` webhook with `resource.id = ref`. -/
  | paypalCompleted (ref payload : String)
  /-- PayPal `PAYMENT.CAPTURE.DENIED` webhook with `resource.id = ref`. -/
  | paypalDenied (ref payload : String)
  /-- Nequi `PAYMENT_COMPLETED` webhook for `paymentId = ref`. -/
  | nequiCompleted (ref payload : String)
  /-- Nequi `PAYMENT_FAILED` webhook for `paymentId = ref`. -/
  | nequiFailed (ref payload : String)
  /-- `POST /payments/paypal/capture/:orderId` whose provider response carried
  the given capture status. -/
  | paypalCapture (ref captureStatus payload : String)
  /-- Any other event type: both webhook switches only log it. -/
  | unhandled
  deriving DecidableEq, Repr

/-- Dispatch of a verified event to its handler: the `switch (event_type)` of
the two webhook routes plus the capture endpoint. -/
def applyEvent (db : DB) (e : PaymentEvent) (now : Int) : DB :=
  match e with
  | .paypalCompleted ref payload => handlePayPalPaymentCompleted db ref payload now
  | .paypalDenied ref payload => handlePayPalPaymentFailed db ref payload
  | .nequiCompleted ref payload => handleNequiPaymentCompleted db ref payload now
  | .nequiFailed ref payload => handleNequiPaymentFailed db ref payload
  | .paypalCapture ref captureStatus payload =>
      capturePayPalPayment db ref captureStatus payload now
  | .unhandled => db

/-- PayPal webhook event types distinguished by the route switch. -/
inductive PayPalEventType
  | captureCompleted
  | captureDenied
  | other
  deriving DecidableEq, Repr

/-- Nequi webhook event types distinguished by the route switch. -/
inductive NequiEventType
  | paymentCompleted
  | paymentFailed
  | other
  deriving DecidableEq, Repr

/-- `POST /webhooks/paypal`: verify the signature first (its boolean outcome
is `sigOk`); on failure answer 400 and touch nothing; otherwise dispatch on
the event type and answer 200.  Returns (HTTP status, new DB state). -/
def paypalWebhookRoute (db : DB) (sigOk : Bool) (et : PayPalEventType)
    (ref payload : String) (now : Int) : Nat × DB :=
  if !sigOk then (400, db)
  else
    match et with
    | .captureCompleted => (200, handlePayPalPaymentCompleted db ref payload now)
    | .captureDenied => (200, handlePayPalPaymentFailed db ref payload)
    | .other => (200, db)

/-- `POST /webhooks/nequi`: same shape as the PayPal route. -/
def nequiWebhookRoute (db : DB) (sigOk : Bool) (et : NequiEventType)
    (ref payload : String) (now : Int) : Nat × DB :=
  if !sigOk then (400, db)
  else
    match et with
    | .paymentCompleted => (200, handleNequiPaymentCompleted db ref payload now)
    | .paymentFailed => (200, handleNequiPaymentFailed db ref payload)
    | .other => (200, db)

/-- Outcome of a payment-creation endpoint (`createPayPalPayment` /
`createNequiPayment`): each constructor corresponds to one of the routes'
`return res.status(...)` exits.  There is no `ActivePaymentExists` outcome
anywhere in the source. -/
inductive CreateResult
  /-- 404 `Order not found`. -/
  | notFound
  /-- 400 `Order is not in pending status`. -/
  | notPending
  /-- 403 `Access denied`. -/
  | accessDenied
  /-- 500 from the catch block when the provider create call throws. -/
  | providerError
  /-- 500 from the catch block when `payment.save()` throws — in particular
  the Mongo duplicate-key error of the unique index on `order_id`. -/
  | saveError
  /-- 200 with the provider reference and the new payment id. -/
  | ok (providerRef : String) (paymentId : String)
  deriving DecidableEq, Repr

/-- The HTTP status each `CreateResult` is sent with. -/
def CreateResult.httpStatus : CreateResult → Nat
  | .notFound => 404
  | .notPending => 400
  | .accessDenied => 403
  | .providerError => 500
  | .saveError => 500
  | .ok _ _ => 200

/-- `payment.save()` under the PaymentSchema indexes: the save is rejected
when another payment already has the same `id` (unique index on `id`) or the
same `order_id` (`PaymentSchema.index({ order_id: 1 }, { unique: true })`);
otherwise the document is appended to the collection. -/
def savePayment (db : DB) (p : Payment) : Option DB :=
  if db.payments.any (fun q => q.id == p.id) ||
     db.payments.any (fun q => q.order_id == p.order_id) then none
  else some { db with payments := db.payments ++ [p] }

/-- The `new Payment({...})` document built by the creation endpoints:
pending, priced from the order, carrying the provider correlation id. -/
def newPaymentDoc (prov : Provider) (order : Order) (provRef npid : String) : Payment :=
  { id := npid, order_id := order.id, provider := prov,
    provider_payment_id := some provRef, status := PaymentStatus.pending,
    amount_cop := order.total_cop, currency := order.currency,
    raw_response := "", confirmed_at := none }

/-- `createPayPalPayment` (payment controller): load the order, require
status `pending`, check permissions, call `paypalService.createOrder`
(its result — the PayPal order id — or its failure is `providerResp`),
save a new pending Payment and point the order's `payment_id` at it.
`isAdmin`/`userId` model `req.user`; `newPid` models `generatePaymentId()`. -/
def createPayPalPayment (db : DB) (order_id : String) (isAdmin : Bool)
    (userId : Option String) (providerResp : Option String)
    (newPid : String) : CreateResult × DB :=
  match findOrderById db order_id with
  | none => (CreateResult.notFound, db)
  | some order =>
    if order.status ≠ OrderStatus.pending then (CreateResult.notPending, db)
    else if ¬isAdmin ∧ order.user_id ≠ userId then (CreateResult.accessDenied, db)
    else
      match providerResp with
      | none => (CreateResult.providerError, db)
      | some provRef =>
        let payment : Payment :=
          { id := newPid, order_id := order.id, provider := Provider.paypal,
            provider_payment_id := some provRef, status := PaymentStatus.pending,
            amount_cop := order.total_cop, currency := order.currency,
            raw_response := "", confirmed_at := none }
        match savePayment db payment with
        | none => (CreateResult.saveError, db)
        | some db1 =>
          (CreateResult.ok provRef newPid,
           updateOrder db1 order_id (paymentRefOrderUpdate newPid))

/-- `createNequiPayment`: same flow as `createPayPalPayment` with provider
`nequi` and the Nequi `paymentId` as provider reference. -/
def createNequiPayment (db : DB) (order_id : String) (isAdmin : Bool)
    (userId : Option String) (providerResp : Option String)
    (newPid : String) : CreateResult × DB :=
  match findOrderById db order_id with
  | none => (CreateResult.notFound, db)
  | some order =>
    if order.status ≠ OrderStatus.pending then (CreateResult.notPending, db)
    else if ¬isAdmin ∧ order.user_id ≠ userId then (CreateResult.accessDenied, db)
    else
      match providerResp with
      | none => (CreateResult.providerError, db)
      | some provRef =>
        let payment : Payment :=
          { id := newPid, order_id := order.id, provider := Provider.nequi,
            provider_payment_id := some provRef, status := PaymentStatus.pending,
            amount_cop := order.total_cop, currency := order.currency,
            raw_response := "", confirmed_at := none }
        match savePayment db payment with
        | none => (CreateResult.saveError, db)
        | some db1 =>
          (CreateResult.ok provRef newPid,
           updateOrder db1 order_id (paymentRefOrderUpdate newPid))

/-- Outcome of `refundPayment`. -/
inductive RefundResult
  /-- 403 `Access denied` (non-admin caller). -/
  | accessDenied
  /-- 404 `Payment not found`. -/
  | notFound
  /-- 400 `Refund not supported for this payment provider` (`manual`). -/
  | unsupported
  /-- 500 from the catch block when the provider refund call throws. -/
  | providerError
  /-- 200 with the provider refund response. -/
  | ok
  deriving DecidableEq, Repr

/-- `refundPayment` (payment controller): admin only; load the payment by its
id; dispatch on the provider and call the provider refund (success or failure
is `providerRefundOk`); on provider success mark the payment `refunded` and
its order `refunded`.  Note: there is no check of the payment or order status
anywhere in this function. -/
def refundPayment (db : DB) (isAdmin : Bool) (payment_id : String)
    (providerRefundOk : Bool) (refundPayload : String) : RefundResult × DB :=
  if ¬isAdmin then (RefundResult.accessDenied, db)
  else
    match findPaymentById db payment_id with
    | none => (RefundResult.notFound, db)
    | some payment =>
      if payment.provider = Provider.manual then (RefundResult.unsupported, db)
      else if ¬providerRefundOk then (RefundResult.providerError, db)
      else
        let db1 := updatePayment db payment_id (refundedPaymentUpdate refundPayload)
        (RefundResult.ok, updateOrder db1 payment.order_id refundedOrderUpdate)

/-- Outcome of `updateOrderStatus`. -/
inductive UpdateResult
  /-- 403 `Access denied` (non-admin caller). -/
  | accessDenied
  /-- 404 `Order not found`. -/
  | notFound
  /-- 200 with the updated order. -/
  | ok
  deriving DecidableEq, Repr

/-- `updateOrderStatus` (order controller): admin only; the validator accepts
every value of the status enum (`isIn(['pending', 'paid', 'cancelled',
'preparing', 'shipped', 'delivered', 'refunded'])`, exactly the constructors
of `OrderStatus`); the order's status is then set by `findOneAndUpdate`
without any inspection of the current status.  The `notes`/`updated_at`
metadata fields are not modelled. -/
def updateOrderStatus (db : DB) (isAdmin : Bool) (orderId : String)
    (newStatus : OrderStatus) : UpdateResult × DB :=
  if ¬isAdmin then (UpdateResult.accessDenied, db)
  else
    match findOrderById db orderId with
    | none => (UpdateResult.notFound, db)
    | some _ =>
      (UpdateResult.ok, updateOrder db orderId (statusOrderUpdate newStatus))

/-- A product document (fields used by `createOrder`). -/
structure Product where
  id : String
  title : String
  price_cop : Nat
  sku : String
  inventory : Option Nat
  active : Bool
  deriving DecidableEq, Repr

/-- One entry of the `items` array of a create-order request.  The request may
carry a client-supplied price, which `createOrder` never reads. -/
structure OrderItemReq where
  product_id : String
  quantity : Nat
  price_cop : Nat
  deriving DecidableEq, Repr

/-- One validated item as stored on the order: the title/price/sku come from
the stored product, the quantity from the request. -/
structure ValidatedItem where
  product_id : String
  title : String
  price_cop : Nat
  quantity : Nat
  sku : String
  deriving DecidableEq, Repr

/-- `calculateTax(subtotal)` from helpers.ts: `Math.round(subtotal * 0.19)`,
the 19% Colombian IVA.  In exact arithmetic, rounding `19*s/100` half-up is
floor division of `19*s + 50` by `100`. -/
def calculateTax (subtotal : Nat) : Nat :=
  (19 * subtotal + 50) / 100

/-- The item-validation loop of `createOrder`: for each requested item, load
the active product (`Product.findOne({ id, active: true })`), reject when it
is missing or when a tracked inventory is below the quantity, and collect the
validated item with the stored price. -/
def validateItems (catalog : List Product) :
    List OrderItemReq → Option (List ValidatedItem)
  | [] => some []
  | item :: rest =>
    match catalog.find? (fun p => p.id == item.product_id && p.active) with
    | none => none
    | some product =>
      match product.inventory with
      | some inv =>
        if inv < item.quantity then none
        else
          (validateItems catalog rest).map fun vis =>
            { product_id := product.id, title := product.title,
              price_cop := product.price_cop, quantity := item.quantity,
              sku := product.sku } :: vis
      | none =>
        (validateItems catalog rest).map fun vis =>
          { product_id := product.id, title := product.title,
            price_cop := product.price_cop, quantity := item.quantity,
            sku := product.sku } :: vis

/-- The monetary result of `createOrder` (order controller): reject an empty
items array, validate each item against the catalog, and build the pending
order with `subtotal_cop` the sum of stored price × quantity over validated
items, `tax_cop = calculateTax(subtotal)` and `total_cop = subtotal + tax`.
Inventory decrement, shipping and notification concerns are not modelled. -/
def createOrder (catalog : List Product) (items : List OrderItemReq)
    (oid : String) (userId : Option String) : Option (Order × List ValidatedItem) :=
  if items.isEmpty then none
  else
    match validateItems catalog items with
    | none => none
    | some vis =>
      let subtotal := (vis.map fun v => v.price_cop * v.quantity).sum
      let tax := calculateTax subtotal
      some ({ id := oid, user_id := userId, subtotal_cop := subtotal,
              tax_cop := tax, total_cop := subtotal + tax, currency := "COP",
              status := OrderStatus.pending, payment_id := none,
              payment_status := PaymentStatus.pending, paid_at := none }, vis)

/-- The token cache of a provider service instance: `accessToken` and
`tokenExpiry` fields of `PayPalService` / `NequiService` (`tokenExpiry` in
milliseconds since epoch, as a JS `Date`). -/
structure TokenState where
  accessToken : Option String
  tokenExpiry : Option Int
  deriving DecidableEq, Repr

/-- A provider token response: `access_token` and `expires_in` (seconds). -/
structure TokenResponse where
  access_token : String
  expires_in : Int
  deriving DecidableEq, Repr

/-- The observable outcome of `getAccessToken`: the token handed to the
caller, the new cache state, and whether a fresh token request was issued. -/
structure AuthResult where
  token : String
  state : TokenState
  refreshed : Bool
  deriving DecidableEq, Repr

/-- `PayPalService.getAccessToken`: return the cached token while
`this.accessToken && this.tokenExpiry && this.tokenExpiry > new Date()`
(a JS empty-string token is falsy, hence the `tok ≠ ""` conjunct); otherwise
request a fresh token (`resp`) and record
`tokenExpiry = Date.now() + (expires_in - 1800) * 1000` — thirty minutes
before the provider-reported expiry.  `now` is `Date.now()` in ms. -/
def PayPalService.getAccessToken (st : TokenState) (now : Int)
    (resp : TokenResponse) : AuthResult :=
  match st.accessToken, st.tokenExpiry with
  | some tok, some expiry =>
    if tok ≠ "" ∧ expiry > now then { token := tok, state := st, refreshed := false }
    else
      { token := resp.access_token,
        state := { accessToken := some resp.access_token,
                   tokenExpiry := some (now + (resp.expires_in - 1800) * 1000) },
        refreshed := true }
  | _, _ =>
    { token := resp.access_token,
      state := { accessToken := some resp.access_token,
                 tokenExpiry := some (now + (resp.expires_in - 1800) * 1000) },
      refreshed := true }

/-- `NequiService.getAccessToken`: identical caching logic to the PayPal
service (the two classes duplicate the code line for line). -/
def NequiService.getAccessToken (st : TokenState) (now : Int)
    (resp : TokenResponse) : AuthResult :=
  match st.accessToken, st.tokenExpiry with
  | some tok, some expiry =>
    if tok ≠ "" ∧ expiry > now then { token := tok, state := st, refreshed := false }
    else
      { token := resp.access_token,
        state := { accessToken := some resp.access_token,
                   tokenExpiry := some (now + (resp.expires_in - 1800) * 1000) },
        refreshed := true }
  | _, _ =>
    { token := resp.access_token,
      state := { accessToken := some resp.access_token,
                 tokenExpiry := some (now + (resp.expires_in - 1800) * 1000) },
      refreshed := true }

-- Sanity checks of the embedding on concrete states.

/-- A pending payment used in concrete examples. -/
def samplePayment : Payment :=
  { id := "PAY1", order_id := "ORD1", provider := Provider.paypal,
    provider_payment_id := some "PP-REF-1", status := PaymentStatus.pending,
    amount_cop := 119000, currency := "COP", raw_response := "",
    confirmed_at := none }

/-- A pending order used in concrete examples. -/
def sampleOrder : Order :=
  { id := "ORD1", user_id := some "U1", subtotal_cop := 100000,
    tax_cop := 19000, total_cop := 119000, currency := "COP",
    status := OrderStatus.pending, payment_id := some "PAY1",
    payment_status := PaymentStatus.pending, paid_at := none }

example :
    (handlePayPalPaymentCompleted
      { orders := [sampleOrder], payments := [samplePayment] } "PP-REF-1" "ok" 5).payments.map
        Payment.status = [PaymentStatus.completed] := by decide

example :
    (handlePayPalPaymentFailed
      { orders := [sampleOrder],
        payments := [{ samplePayment with status := PaymentStatus.completed }] }
      "PP-REF-1" "bad").payments.map Payment.status = [PaymentStatus.failed] := by decide

/-! ## Generic list lemmas for the `findOneAndUpdate` embedding -/

lemma find?_map_pred_invariant {α : Type} (pred : α → Bool) (h : α → α)
    (hp : ∀ a, pred (h a) = pred a) (l : List α) :
    (l.map h).find? pred = (l.find? pred).map h := by
  rw [List.find?_map]
  have hph : pred ∘ h = pred := funext hp
  rw [hph]

lemma map_idem {α : Type} (h : α → α) (hh : ∀ a, h (h a) = h a) (l : List α) :
    (l.map h).map h = l.map h := by
  rw [List.map_map]
  exact List.map_congr_left fun a _ => hh a

/-- In a list with pairwise-distinct ids, two members with the same id are
the same record (the schema's unique index on `Payment.id`). -/
lemma payment_eq_of_mem_of_uniqueIds {l : List Payment}
    (hl : l.Pairwise fun a b => a.id ≠ b.id) {p q : Payment}
    (hp : p ∈ l) (hq : q ∈ l) (hid : p.id = q.id) : p = q := by
  induction l with
  | nil => cases hp
  | cons x xs ih =>
    rcases List.pairwise_cons.mp hl with ⟨hx, hxs⟩
    rcases List.mem_cons.mp hp with hp1 | hp1 <;>
      rcases List.mem_cons.mp hq with hq1 | hq1
    · exact hp1.trans hq1.symm
    · exact absurd (hp1 ▸ hid) (hx q hq1)
    · exact absurd (hq1 ▸ hid.symm) (hx p hp1)
    · exact ih hxs hp1 hq1

/-! ## Step lemmas about the update primitives -/

lemma updatePayment_orders (db : DB) (pid : String) (g : Payment → Payment) :
    (updatePayment db pid g).orders = db.orders := rfl

lemma updateOrder_payments (db : DB) (oid : String) (f : Order → Order) :
    (updateOrder db oid f).payments = db.payments := rfl

lemma findPaymentByProviderRef_updateOrder (db : DB) (oid : String)
    (f : Order → Order) (ref : String) :
    findPaymentByProviderRef (updateOrder db oid f) ref
      = findPaymentByProviderRef db ref := rfl

lemma findPaymentByProviderRef_updatePayment (db : DB) (pid : String)
    (g : Payment → Payment)
    (hg : ∀ p, (g p).provider_payment_id = p.provider_payment_id) (ref : String) :
    findPaymentByProviderRef (updatePayment db pid g) ref
      = (findPaymentByProviderRef db ref).map
          fun p => if p.id == pid then g p else p := by
  unfold findPaymentByProviderRef updatePayment
  apply find?_map_pred_invariant
  intro p
  cases hc : p.id == pid with
  | true => simp [hg]
  | false => simp

lemma updatePayment_idem (db : DB) (pid : String) (g : Payment → Payment)
    (hid : ∀ p, (g p).id = p.id) (hgg : ∀ p, g (g p) = g p) :
    updatePayment (updatePayment db pid g) pid g = updatePayment db pid g := by
  obtain ⟨os, ps⟩ := db
  unfold updatePayment
  simp only [DB.mk.injEq, true_and]
  apply map_idem
  intro p
  cases hc : p.id == pid with
  | true =>
    have : (g p).id == pid := by
      rw [hid p]; exact hc
    simp [hc, this, hgg]
  | false => simp [hc]

lemma updateOrder_idem (db : DB) (oid : String) (f : Order → Order)
    (hid : ∀ o, (f o).id = o.id) (hff : ∀ o, f (f o) = f o) :
    updateOrder (updateOrder db oid f) oid f = updateOrder db oid f := by
  obtain ⟨os, ps⟩ := db
  unfold updateOrder
  simp only [DB.mk.injEq, and_true]
  apply map_idem
  intro o
  cases hc : o.id == oid with
  | true =>
    have : (f o).id == oid := by
      rw [hid o]; exact hc
    simp [hc, this, hff]
  | false => simp [hc]

lemma updatePayment_updateOrder_comm (db : DB) (pid oid : String)
    (g : Payment → Payment) (f : Order → Order) :
    updatePayment (updateOrder db oid f) pid g
      = updateOrder (updatePayment db pid g) oid f := rfl

/-! ## Unfolding lemmas for the webhook handlers -/

lemma handlePayPalPaymentCompleted_of_find_none {db : DB} {ref : String}
    (payload : String) (now : Int) (h : findPaymentByProviderRef db ref = none) :
    handlePayPalPaymentCompleted db ref payload now = db := by
  unfold handlePayPalPaymentCompleted
  rw [h]

lemma handlePayPalPaymentCompleted_of_find_not_pending {db : DB} {ref : String}
    {q : Payment} (payload : String) (now : Int)
    (h : findPaymentByProviderRef db ref = some q)
    (hs : q.status ≠ PaymentStatus.pending) :
    handlePayPalPaymentCompleted db ref payload now = db := by
  unfold handlePayPalPaymentCompleted
  rw [h]
  simp [hs]

lemma handlePayPalPaymentCompleted_of_find_pending {db : DB} {ref : String}
    {q : Payment} (payload : String) (now : Int)
    (h : findPaymentByProviderRef db ref = some q)
    (hs : q.status = PaymentStatus.pending) :
    handlePayPalPaymentCompleted db ref payload now
      = updateOrder (updatePayment db q.id (completedPaymentUpdate payload now))
          q.order_id (paidOrderUpdate now) := by
  unfold handlePayPalPaymentCompleted
  rw [h]
  simp [hs]

lemma handlePayPalPaymentFailed_of_find_none {db : DB} {ref : String}
    (payload : String) (h : findPaymentByProviderRef db ref = none) :
    handlePayPalPaymentFailed db ref payload = db := by
  unfold handlePayPalPaymentFailed
  rw [h]

lemma handlePayPalPaymentFailed_of_find_some {db : DB} {ref : String}
    {q : Payment} (payload : String)
    (h : findPaymentByProviderRef db ref = some q) :
    handlePayPalPaymentFailed db ref payload
      = updateOrder (updatePayment db q.id (failedPaymentUpdate payload))
          q.order_id cancelledOrderUpdate := by
  unfold handlePayPalPaymentFailed
  rw [h]

/-- The Nequi completed handler is line-for-line the PayPal completed
handler. -/
lemma handleNequiPaymentCompleted_eq :
    handleNequiPaymentCompleted = handlePayPalPaymentCompleted := rfl

/-- The Nequi failed handler is line-for-line the PayPal failed handler. -/
lemma handleNequiPaymentFailed_eq :
    handleNequiPaymentFailed = handlePayPalPaymentFailed := rfl

lemma capturePayPalPayment_of_not_completed {captureStatus : String}
    (db : DB) (orderId payload : String) (now : Int)
    (h : captureStatus ≠ "COMPLETED") :
    capturePayPalPayment db orderId captureStatus payload now = db := by
  unfold capturePayPalPayment
  simp [h]

lemma capturePayPalPayment_of_find_none {db : DB} {orderId : String}
    (payload : String) (now : Int)
    (h : findPaymentByProviderRef db orderId = none) :
    capturePayPalPayment db orderId "COMPLETED" payload now = db := by
  unfold capturePayPalPayment
  rw [if_pos rfl, h]

lemma capturePayPalPayment_of_find_some {db : DB} {orderId : String}
    {q : Payment} (payload : String) (now : Int)
    (h : findPaymentByProviderRef db orderId = some q) :
    capturePayPalPayment db orderId "COMPLETED" payload now
      = updateOrder (updatePayment db q.id (completedPaymentUpdate payload now))
          q.order_id (paidOrderUpdate now) := by
  unfold capturePayPalPayment
  rw [if_pos rfl, h]

/-! ## Idempotence of the event handlers -/

lemma handlePayPalPaymentCompleted_idem (db : DB) (ref payload : String)
    (now : Int) :
    handlePayPalPaymentCompleted
        (handlePayPalPaymentCompleted db ref payload now) ref payload now
      = handlePayPalPaymentCompleted db ref payload now := by
  cases hfind : findPaymentByProviderRef db ref with
  | none =>
    have h1 := handlePayPalPaymentCompleted_of_find_none payload now hfind
    simp only [h1]
  | some q =>
    by_cases hs : q.status = PaymentStatus.pending
    · have h1 := handlePayPalPaymentCompleted_of_find_pending payload now hfind hs
      have hfind2 : findPaymentByProviderRef
          (handlePayPalPaymentCompleted db ref payload now) ref
            = some (completedPaymentUpdate payload now q) := by
        rw [h1, findPaymentByProviderRef_updateOrder,
            findPaymentByProviderRef_updatePayment db q.id
              (completedPaymentUpdate payload now) (fun p => rfl) ref, hfind]
        simp
      rw [handlePayPalPaymentCompleted_of_find_not_pending payload now hfind2
        (by simp [completedPaymentUpdate])]
    · have h1 := handlePayPalPaymentCompleted_of_find_not_pending payload now hfind hs
      simp only [h1]

lemma handlePayPalPaymentFailed_idem (db : DB) (ref payload : String) :
    handlePayPalPaymentFailed (handlePayPalPaymentFailed db ref payload) ref payload
      = handlePayPalPaymentFailed db ref payload := by
  cases hfind : findPaymentByProviderRef db ref with
  | none =>
    have h1 := handlePayPalPaymentFailed_of_find_none payload hfind
    simp only [h1]
  | some q =>
    have h1 := handlePayPalPaymentFailed_of_find_some payload hfind
    have hfind2 : findPaymentByProviderRef
        (handlePayPalPaymentFailed db ref payload) ref
          = some (failedPaymentUpdate payload q) := by
      rw [h1, findPaymentByProviderRef_updateOrder,
          findPaymentByProviderRef_updatePayment db q.id
            (failedPaymentUpdate payload) (fun p => rfl) ref, hfind]
      simp
    have h2 := handlePayPalPaymentFailed_of_find_some payload hfind2
    rw [h2, h1]
    rw [show (failedPaymentUpdate payload q).id = q.id from rfl,
        show (failedPaymentUpdate payload q).order_id = q.order_id from rfl,
        updatePayment_updateOrder_comm,
        updatePayment_idem db q.id (failedPaymentUpdate payload)
          (fun p => rfl) (fun p => rfl),
        updateOrder_idem (updatePayment db q.id (failedPaymentUpdate payload))
          q.order_id cancelledOrderUpdate (fun o => rfl) (fun o => rfl)]

lemma capturePayPalPayment_idem (db : DB)
    (orderId captureStatus payload : String) (now : Int) :
    capturePayPalPayment
        (capturePayPalPayment db orderId captureStatus payload now)
        orderId captureStatus payload now
      = capturePayPalPayment db orderId captureStatus payload now := by
  by_cases hcs : captureStatus = "COMPLETED"
  · subst hcs
    cases hfind : findPaymentByProviderRef db orderId with
    | none =>
      have h1 := capturePayPalPayment_of_find_none payload now hfind
      simp only [h1]
    | some q =>
      have h1 := capturePayPalPayment_of_find_some payload now hfind
      have hfind2 : findPaymentByProviderRef
          (capturePayPalPayment db orderId "COMPLETED" payload now) orderId
            = some (completedPaymentUpdate payload now q) := by
        rw [h1, findPaymentByProviderRef_updateOrder,
            findPaymentByProviderRef_updatePayment db q.id
              (completedPaymentUpdate payload now) (fun p => rfl) orderId, hfind]
        simp
      have h2 := capturePayPalPayment_of_find_some payload now hfind2
      rw [h2, h1]
      rw [show (completedPaymentUpdate payload now q).id = q.id from rfl,
          show (completedPaymentUpdate payload now q).order_id = q.order_id from rfl,
          updatePayment_updateOrder_comm,
          updatePayment_idem db q.id (completedPaymentUpdate payload now)
            (fun p => rfl) (fun p => rfl),
          updateOrder_idem
            (updatePayment db q.id (completedPaymentUpdate payload now))
            q.order_id (paidOrderUpdate now) (fun o => rfl) (fun o => rfl)]
  · have h1 := capturePayPalPayment_of_not_completed db orderId payload now hcs
    simp only [h1]

lemma applyEvent_idem (db : DB) (e : PaymentEvent) (now : Int) :
    applyEvent (applyEvent db e now) e now = applyEvent db e now := by
  cases e with
  | paypalCompleted ref payload =>
    exact handlePayPalPaymentCompleted_idem db ref payload now
  | paypalDenied ref payload => exact handlePayPalPaymentFailed_idem db ref payload
  | nequiCompleted ref payload =>
    exact handlePayPalPaymentCompleted_idem db ref payload now
  | nequiFailed ref payload => exact handlePayPalPaymentFailed_idem db ref payload
  | paypalCapture ref captureStatus payload =>
    exact capturePayPalPayment_idem db ref captureStatus payload now
  | unhandled => rfl

/-! ## Which payment status an event can write -/

/-- Events handled by a webhook `*Completed` handler (these check that the
payment is still pending before writing). -/
def PaymentEvent.isWebhookCompleted : PaymentEvent → Bool
  | .paypalCompleted _ _ => true
  | .nequiCompleted _ _ => true
  | _ => false

/-- The synchronous capture endpoint (writes `completed` without a
current-status check). -/
def PaymentEvent.isCapture : PaymentEvent → Bool
  | .paypalCapture _ _ _ => true
  | _ => false

/-- Events handled by a webhook `*Failed` handler (these write `failed`
without a current-status check). -/
def PaymentEvent.isFailed : PaymentEvent → Bool
  | .paypalDenied _ _ => true
  | .nequiFailed _ _ => true
  | _ => false

lemma handlePayPalPaymentCompleted_transitions (db : DB) (ref payload : String)
    (now : Int) (hids : db.payments.Pairwise fun a b => a.id ≠ b.id) :
    ∀ p' ∈ (handlePayPalPaymentCompleted db ref payload now).payments,
      ∃ p ∈ db.payments, p'.id = p.id ∧ p'.order_id = p.order_id ∧
        (p'.status = p.status ∨
          (p.status = PaymentStatus.pending ∧
           p'.status = PaymentStatus.completed)) := by
  intro p' hp'
  cases hfind : findPaymentByProviderRef db ref with
  | none =>
    rw [handlePayPalPaymentCompleted_of_find_none payload now hfind] at hp'
    exact ⟨p', hp', rfl, rfl, Or.inl rfl⟩
  | some q =>
    by_cases hs : q.status = PaymentStatus.pending
    · rw [handlePayPalPaymentCompleted_of_find_pending payload now hfind hs] at hp'
      rw [updateOrder_payments, updatePayment] at hp'
      simp only [List.mem_map] at hp'
      obtain ⟨p, hp, hmap⟩ := hp'
      refine ⟨p, hp, ?_⟩
      cases hc : p.id == q.id with
      | true =>
        rw [hc] at hmap
        simp only [if_true] at hmap
        have hpq : p = q :=
          payment_eq_of_mem_of_uniqueIds hids hp
            (List.mem_of_find?_eq_some hfind) (eq_of_beq hc)
        exact hmap ▸ ⟨rfl, rfl, Or.inr ⟨hpq ▸ hs, rfl⟩⟩
      | false =>
        rw [hc] at hmap
        simp only [if_false, Bool.false_eq_true] at hmap
        exact hmap ▸ ⟨rfl, rfl, Or.inl rfl⟩
    · rw [handlePayPalPaymentCompleted_of_find_not_pending payload now hfind hs] at hp'
      exact ⟨p', hp', rfl, rfl, Or.inl rfl⟩

lemma handlePayPalPaymentFailed_transitions (db : DB) (ref payload : String) :
    ∀ p' ∈ (handlePayPalPaymentFailed db ref payload).payments,
      ∃ p ∈ db.payments, p'.id = p.id ∧ p'.order_id = p.order_id ∧
        (p'.status = p.status ∨ p'.status = PaymentStatus.failed) := by
  intro p' hp'
  cases hfind : findPaymentByProviderRef db ref with
  | none =>
    rw [handlePayPalPaymentFailed_of_find_none payload hfind] at hp'
    exact ⟨p', hp', rfl, rfl, Or.inl rfl⟩
  | some q =>
    rw [handlePayPalPaymentFailed_of_find_some payload hfind] at hp'
    rw [updateOrder_payments, updatePayment] at hp'
    simp only [List.mem_map] at hp'
    obtain ⟨p, hp, hmap⟩ := hp'
    refine ⟨p, hp, ?_⟩
    cases hc : p.id == q.id with
    | true =>
      rw [hc] at hmap
      simp only [if_true] at hmap
      exact hmap ▸ ⟨rfl, rfl, Or.inr rfl⟩
    | false =>
      rw [hc] at hmap
      simp only [if_false, Bool.false_eq_true] at hmap
      exact hmap ▸ ⟨rfl, rfl, Or.inl rfl⟩

lemma capturePayPalPayment_transitions (db : DB)
    (orderId captureStatus payload : String) (now : Int) :
    ∀ p' ∈ (capturePayPalPayment db orderId captureStatus payload now).payments,
      ∃ p ∈ db.payments, p'.id = p.id ∧ p'.order_id = p.order_id ∧
        (p'.status = p.status ∨ p'.status = PaymentStatus.completed) := by
  intro p' hp'
  by_cases hcs : captureStatus = "COMPLETED"
  · subst hcs
    cases hfind : findPaymentByProviderRef db orderId with
    | none =>
      rw [capturePayPalPayment_of_find_none payload now hfind] at hp'
      exact ⟨p', hp', rfl, rfl, Or.inl rfl⟩
    | some q =>
      rw [capturePayPalPayment_of_find_some payload now hfind] at hp'
      rw [updateOrder_payments, updatePayment] at hp'
      simp only [List.mem_map] at hp'
      obtain ⟨p, hp, hmap⟩ := hp'
      refine ⟨p, hp, ?_⟩
      cases hc : p.id == q.id with
      | true =>
        rw [hc] at hmap
        simp only [if_true] at hmap
        exact hmap ▸ ⟨rfl, rfl, Or.inr rfl⟩
      | false =>
        rw [hc] at hmap
        simp only [if_false, Bool.false_eq_true] at hmap
        exact hmap ▸ ⟨rfl, rfl, Or.inl rfl⟩
  · rw [capturePayPalPayment_of_not_completed db orderId payload now hcs] at hp'
    exact ⟨p', hp', rfl, rfl, Or.inl rfl⟩

/-! ## Claim theorems -/

/-- C1 (counterexample): the claim says no event ever moves a Payment from
`completed` to `failed`; but a PayPal PAYMENT.CAPTURE.DENIED webhook applied
to a database whose only Payment is `completed` (order `paid`) moves that
Payment to `failed` and its Order to `cancelled` — the failed handlers have
no current-status guard. -/
theorem claim_C1_counterexample :
    (applyEvent
        { orders := [{ sampleOrder with status := OrderStatus.paid }],
          payments := [{ samplePayment with status := PaymentStatus.completed }] }
        (PaymentEvent.paypalDenied "PP-REF-1" "denied") 7).payments.map
          Payment.status = [PaymentStatus.failed] ∧
    (applyEvent
        { orders := [{ sampleOrder with status := OrderStatus.paid }],
          payments := [{ samplePayment with status := PaymentStatus.completed }] }
        (PaymentEvent.paypalDenied "PP-REF-1" "denied") 7).orders.map
          Order.status = [OrderStatus.cancelled] := by decide

/-- C1 (amended): under any webhook or capture event, every Payment either
keeps its status, or — for a webhook COMPLETED event — moves pending→completed
(the completed handlers refuse to touch a non-pending Payment, so
failed→completed is impossible via webhooks), or — for a synchronous capture
reporting COMPLETED — is set to `completed` regardless of its current status,
or — for a DENIED/FAILED webhook — is set to `failed` regardless of its
current status (so completed→failed is reachable).  Payment ids are assumed
pairwise distinct, as guaranteed by the unique index on `Payment.id`. -/
theorem claim_C1_amended_payment_transitions (db : DB) (e : PaymentEvent)
    (now : Int) (hids : db.payments.Pairwise fun a b => a.id ≠ b.id) :
    ∀ p' ∈ (applyEvent db e now).payments, ∃ p ∈ db.payments,
      p'.id = p.id ∧ p'.order_id = p.order_id ∧
      (p'.status = p.status
       ∨ (e.isWebhookCompleted = true ∧ p.status = PaymentStatus.pending ∧
          p'.status = PaymentStatus.completed)
       ∨ (e.isCapture = true ∧ p'.status = PaymentStatus.completed)
       ∨ (e.isFailed = true ∧ p'.status = PaymentStatus.failed)) := by
  intro p' hp'
  cases e with
  | paypalCompleted ref payload =>
    obtain ⟨p, hp, h1, h2, h3⟩ :=
      handlePayPalPaymentCompleted_transitions db ref payload now hids p' hp'
    refine ⟨p, hp, h1, h2, ?_⟩
    rcases h3 with h3 | ⟨h3, h4⟩
    · exact Or.inl h3
    · exact Or.inr (Or.inl ⟨rfl, h3, h4⟩)
  | nequiCompleted ref payload =>
    obtain ⟨p, hp, h1, h2, h3⟩ :=
      handlePayPalPaymentCompleted_transitions db ref payload now hids p' hp'
    refine ⟨p, hp, h1, h2, ?_⟩
    rcases h3 with h3 | ⟨h3, h4⟩
    · exact Or.inl h3
    · exact Or.inr (Or.inl ⟨rfl, h3, h4⟩)
  | paypalDenied ref payload =>
    obtain ⟨p, hp, h1, h2, h3⟩ :=
      handlePayPalPaymentFailed_transitions db ref payload p' hp'
    refine ⟨p, hp, h1, h2, ?_⟩
    rcases h3 with h3 | h3
    · exact Or.inl h3
    · exact Or.inr (Or.inr (Or.inr ⟨rfl, h3⟩))
  | nequiFailed ref payload =>
    obtain ⟨p, hp, h1, h2, h3⟩ :=
      handlePayPalPaymentFailed_transitions db ref payload p' hp'
    refine ⟨p, hp, h1, h2, ?_⟩
    rcases h3 with h3 | h3
    · exact Or.inl h3
    · exact Or.inr (Or.inr (Or.inr ⟨rfl, h3⟩))
  | paypalCapture ref captureStatus payload =>
    obtain ⟨p, hp, h1, h2, h3⟩ :=
      capturePayPalPayment_transitions db ref captureStatus payload now p' hp'
    refine ⟨p, hp, h1, h2, ?_⟩
    rcases h3 with h3 | h3
    · exact Or.inl h3
    · exact Or.inr (Or.inr (Or.inl ⟨rfl, h3⟩))
  | unhandled => exact ⟨p', hp', rfl, rfl, Or.inl rfl⟩

/-- C1 amended witness: the theorem applied to a concrete one-payment
database and a DENIED event. -/
theorem claim_C1_amended_payment_transitions_witness :
    ([samplePayment].Pairwise fun a b => a.id ≠ b.id) ∧
    (∀ p' ∈ (applyEvent { orders := [sampleOrder], payments := [samplePayment] }
        (PaymentEvent.paypalDenied "PP-REF-1" "denied") 7).payments,
      ∃ p ∈ ({ orders := [sampleOrder], payments := [samplePayment] } : DB).payments,
        p'.id = p.id ∧ p'.order_id = p.order_id ∧
        (p'.status = p.status
         ∨ ((PaymentEvent.paypalDenied "PP-REF-1" "denied").isWebhookCompleted = true ∧
            p.status = PaymentStatus.pending ∧ p'.status = PaymentStatus.completed)
         ∨ ((PaymentEvent.paypalDenied "PP-REF-1" "denied").isCapture = true ∧
            p'.status = PaymentStatus.completed)
         ∨ ((PaymentEvent.paypalDenied "PP-REF-1" "denied").isFailed = true ∧
            p'.status = PaymentStatus.failed))) :=
  ⟨by decide,
   claim_C1_amended_payment_transitions
     { orders := [sampleOrder], payments := [samplePayment] }
     (PaymentEvent.paypalDenied "PP-REF-1" "denied") 7 (by decide)⟩

/-- C2: delivering the same (already signature-verified) webhook or capture
event N ≥ 1 times leaves the Payment/Order database in exactly the state of
delivering it once — the handlers are idempotent — and a verified webhook
delivery, in particular a duplicate whose target status is already current,
is answered with HTTP 200 (success). -/
theorem claim_C2_duplicate_delivery_idempotent (db : DB) (e : PaymentEvent)
    (now : Int) (n : Nat) :
    (fun d => applyEvent d e now)^[n + 1] db = applyEvent db e now ∧
    (∀ et ref payload, (paypalWebhookRoute db true et ref payload now).1 = 200) ∧
    (∀ et ref payload, (nequiWebhookRoute db true et ref payload now).1 = 200) := by
  refine ⟨?_, ?_, ?_⟩
  · induction n with
    | zero => simp
    | succ k ih =>
      rw [Function.iterate_succ_apply', ih]
      exact applyEvent_idem db e now
  · intro et ref payload
    cases et <;> rfl
  · intro et ref payload
    cases et <;> rfl

/-- C3: a webhook whose signature verification fails is answered with HTTP
400 and the database is returned untouched — so a forged COMPLETED claim
against a real pending Payment leaves the Payment pending and causes no
Order transition. -/
theorem claim_C3_bad_signature_rejected_without_mutation (db : DB)
    (etP : PayPalEventType) (etN : NequiEventType) (ref payload : String)
    (now : Int) :
    paypalWebhookRoute db false etP ref payload now = (400, db) ∧
    nequiWebhookRoute db false etN ref payload now = (400, db) :=
  ⟨rfl, rfl⟩

/-! ## Lookup lemmas for id-keyed updates -/

lemma findOrderById_updateOrder (db : DB) (oid oid2 : String)
    (f : Order → Order) (hf : ∀ o, (f o).id = o.id) :
    findOrderById (updateOrder db oid f) oid2
      = (findOrderById db oid2).map fun o => if o.id == oid then f o else o := by
  unfold findOrderById updateOrder
  apply find?_map_pred_invariant
  intro o
  cases hc : o.id == oid with
  | true => simp [hf]
  | false => simp

lemma findOrderById_updatePayment (db : DB) (pid oid2 : String)
    (g : Payment → Payment) :
    findOrderById (updatePayment db pid g) oid2 = findOrderById db oid2 := rfl

lemma findPaymentById_updatePayment (db : DB) (pid pid2 : String)
    (g : Payment → Payment) (hg : ∀ p, (g p).id = p.id) :
    findPaymentById (updatePayment db pid g) pid2
      = (findPaymentById db pid2).map fun p => if p.id == pid then g p else p := by
  unfold findPaymentById updatePayment
  apply find?_map_pred_invariant
  intro p
  cases hc : p.id == pid with
  | true => simp [hg]
  | false => simp

lemma findPaymentById_updateOrder (db : DB) (oid pid2 : String)
    (f : Order → Order) :
    findPaymentById (updateOrder db oid f) pid2 = findPaymentById db pid2 := rfl

/-- C5 (counterexample): the claim says an Order in a terminal state is never
mutated (other than paid→refunded) and every other requested transition fails
with IllegalTransition; but `updateOrderStatus` lets an admin move a
`cancelled` order straight to `paid` and reports success. -/
theorem claim_C5_counterexample :
    (updateOrderStatus
        { orders := [{ sampleOrder with status := OrderStatus.cancelled }],
          payments := [] } true "ORD1" OrderStatus.paid).1 = UpdateResult.ok ∧
    (updateOrderStatus
        { orders := [{ sampleOrder with status := OrderStatus.cancelled }],
          payments := [] } true "ORD1" OrderStatus.paid).2.orders.map
          Order.status = [OrderStatus.paid] := by decide

lemma updateOrderStatus_of_found {db : DB} {oid : String} {o : Order}
    (newStatus : OrderStatus) (h : findOrderById db oid = some o) :
    updateOrderStatus db true oid newStatus
      = (UpdateResult.ok, updateOrder db oid (statusOrderUpdate newStatus)) := by
  unfold updateOrderStatus
  simp [h]

/-- C5 (amended): `updateOrderStatus` performs no transition validation at
all: for any existing order and ANY of the seven schema statuses (the
validator accepts exactly the enum), an admin request succeeds and the
order's status becomes the requested value — from any current status,
terminal or not.  No `IllegalTransition` error exists in the code; the only
transitions the payment flows themselves perform are →paid (completed),
→cancelled (failed) and →refunded (refund). -/
theorem claim_C5_amended_updateOrderStatus_unrestricted (db : DB)
    (oid : String) (newStatus : OrderStatus) (o : Order)
    (h : findOrderById db oid = some o) :
    (updateOrderStatus db true oid newStatus).1 = UpdateResult.ok ∧
    findOrderById (updateOrderStatus db true oid newStatus).2 oid
      = some { o with status := newStatus } := by
  have h2 : (updateOrderStatus db true oid newStatus).2
      = updateOrder db oid (statusOrderUpdate newStatus) := by
    rw [updateOrderStatus_of_found newStatus h]
  have hid : o.id = oid := by
    have h' := h
    unfold findOrderById at h'
    have hb := List.find?_some h'
    exact eq_of_beq hb
  refine ⟨by rw [updateOrderStatus_of_found newStatus h], ?_⟩
  rw [h2, findOrderById_updateOrder db oid oid (statusOrderUpdate newStatus)
        (fun o => rfl), h]
  simp [hid, statusOrderUpdate]

/-- C5 amended witness: a `cancelled` order moved to `paid` by an admin. -/
theorem claim_C5_amended_witness :
    (findOrderById
        { orders := [{ sampleOrder with status := OrderStatus.cancelled }],
          payments := [] } "ORD1"
      = some { sampleOrder with status := OrderStatus.cancelled }) ∧
    ((updateOrderStatus
        { orders := [{ sampleOrder with status := OrderStatus.cancelled }],
          payments := [] } true "ORD1" OrderStatus.paid).1 = UpdateResult.ok ∧
     findOrderById (updateOrderStatus
        { orders := [{ sampleOrder with status := OrderStatus.cancelled }],
          payments := [] } true "ORD1" OrderStatus.paid).2 "ORD1"
      = some { { sampleOrder with status := OrderStatus.cancelled } with
               status := OrderStatus.paid }) :=
  ⟨by decide,
   claim_C5_amended_updateOrderStatus_unrestricted
     { orders := [{ sampleOrder with status := OrderStatus.cancelled }],
       payments := [] } "ORD1" OrderStatus.paid
     { sampleOrder with status := OrderStatus.cancelled } (by decide)⟩

/-- C6 (counterexample): the claim says a refund request for a `pending`
(unpaid) order fails with IllegalTransition and mutates nothing; but
`refundPayment` checks no status at all: on a database whose only order is
`pending`, an admin refund of its (pending) payment succeeds once the
provider call succeeds, and marks both records `refunded`. -/
theorem claim_C6_counterexample :
    (refundPayment { orders := [sampleOrder], payments := [samplePayment] }
        true "PAY1" true "refund-resp").1 = RefundResult.ok ∧
    (refundPayment { orders := [sampleOrder], payments := [samplePayment] }
        true "PAY1" true "refund-resp").2.orders.map Order.status
      = [OrderStatus.refunded] ∧
    (refundPayment { orders := [sampleOrder], payments := [samplePayment] }
        true "PAY1" true "refund-resp").2.payments.map Payment.status
      = [PaymentStatus.refunded] := by decide

/-- C6 (amended): `refundPayment` checks no order or payment status: for any
existing non-`manual` payment — even one whose order is still `pending` — an
admin refund succeeds whenever the provider refund call succeeds, and only
then marks the Payment and its Order `refunded`; when the provider call
fails nothing is mutated (the claim's provider-confirmation half does
hold). -/
theorem claim_C6_amended_refund_no_status_check (db : DB)
    (pid payload : String) (p : Payment) (o : Order)
    (hp : findPaymentById db pid = some p)
    (hprov : p.provider ≠ Provider.manual)
    (ho : findOrderById db p.order_id = some o) :
    refundPayment db true pid false payload = (RefundResult.providerError, db) ∧
    (refundPayment db true pid true payload).1 = RefundResult.ok ∧
    (findPaymentById (refundPayment db true pid true payload).2 pid).map
        Payment.status = some PaymentStatus.refunded ∧
    (findOrderById (refundPayment db true pid true payload).2 p.order_id).map
        Order.status = some OrderStatus.refunded := by
  have hfail : refundPayment db true pid false payload
      = (RefundResult.providerError, db) := by
    unfold refundPayment
    simp [hp, hprov]
  have hok : refundPayment db true pid true payload
      = (RefundResult.ok,
         updateOrder (updatePayment db pid (refundedPaymentUpdate payload))
           p.order_id refundedOrderUpdate) := by
    unfold refundPayment
    simp [hp, hprov]
  have hok2 : (refundPayment db true pid true payload).2
      = updateOrder (updatePayment db pid (refundedPaymentUpdate payload))
          p.order_id refundedOrderUpdate := by
    rw [hok]
  have hpid : p.id = pid := by
    have hp' := hp
    unfold findPaymentById at hp'
    have hb := List.find?_some hp'
    exact eq_of_beq hb
  have hoid : o.id = p.order_id := by
    have ho' := ho
    unfold findOrderById at ho'
    have hb := List.find?_some ho'
    exact eq_of_beq hb
  refine ⟨hfail, by rw [hok], ?_, ?_⟩
  · rw [hok2,
        findPaymentById_updateOrder
          (updatePayment db pid (refundedPaymentUpdate payload))
          p.order_id pid refundedOrderUpdate,
        findPaymentById_updatePayment db pid pid (refundedPaymentUpdate payload)
          (fun q => rfl), hp]
    simp [hpid, refundedPaymentUpdate]
  · rw [hok2,
        findOrderById_updateOrder
          (updatePayment db pid (refundedPaymentUpdate payload))
          p.order_id p.order_id refundedOrderUpdate (fun o => rfl),
        findOrderById_updatePayment, ho]
    simp [hoid, refundedOrderUpdate]

/-! ## Step lemmas for the creation endpoints -/

lemma createPayPalPayment_of_order_none {db : DB} {oid : String}
    (userId : Option String) (providerResp : Option String) (npid : String)
    (h : findOrderById db oid = none) :
    createPayPalPayment db oid true userId providerResp npid
      = (CreateResult.notFound, db) := by
  unfold createPayPalPayment
  rw [h]

lemma createPayPalPayment_of_not_pending {db : DB} {oid : String} {o : Order}
    (userId : Option String) (providerResp : Option String) (npid : String)
    (h : findOrderById db oid = some o)
    (hs : o.status ≠ OrderStatus.pending) :
    createPayPalPayment db oid true userId providerResp npid
      = (CreateResult.notPending, db) := by
  unfold createPayPalPayment
  rw [h]
  simp [hs]

lemma createPayPalPayment_of_provider_none {db : DB} {oid : String} {o : Order}
    (userId : Option String) (npid : String)
    (h : findOrderById db oid = some o)
    (hs : o.status = OrderStatus.pending) :
    createPayPalPayment db oid true userId none npid
      = (CreateResult.providerError, db) := by
  unfold createPayPalPayment
  rw [h]
  simp [hs]

lemma createPayPalPayment_of_save_fail {db : DB} {oid : String} {o : Order}
    (userId : Option String) (provRef npid : String)
    (h : findOrderById db oid = some o)
    (hs : o.status = OrderStatus.pending)
    (hsave : savePayment db (newPaymentDoc Provider.paypal o provRef npid) = none) :
    createPayPalPayment db oid true userId (some provRef) npid
      = (CreateResult.saveError, db) := by
  unfold newPaymentDoc at hsave
  unfold createPayPalPayment
  rw [h]
  simp [hs, hsave]

lemma createPayPalPayment_of_save_ok {db db1 : DB} {oid : String} {o : Order}
    (userId : Option String) (provRef npid : String)
    (h : findOrderById db oid = some o)
    (hs : o.status = OrderStatus.pending)
    (hsave : savePayment db (newPaymentDoc Provider.paypal o provRef npid) = some db1) :
    createPayPalPayment db oid true userId (some provRef) npid
      = (CreateResult.ok provRef npid,
         updateOrder db1 oid (paymentRefOrderUpdate npid)) := by
  unfold newPaymentDoc at hsave
  unfold createPayPalPayment
  rw [h]
  simp [hs, hsave]

lemma savePayment_of_order_exists {db : DB} {p : Payment}
    (h : db.payments.any (fun q => q.order_id == p.order_id) = true) :
    savePayment db p = none := by
  unfold savePayment
  simp [h]

lemma savePayment_eq_some {db db1 : DB} {p : Payment}
    (h : savePayment db p = some db1) :
    db1 = { db with payments := db.payments ++ [p] } ∧
    db.payments.any (fun q => q.id == p.id) = false ∧
    db.payments.any (fun q => q.order_id == p.order_id) = false := by
  unfold savePayment at h
  by_cases hc : (db.payments.any (fun q => q.id == p.id) ||
      db.payments.any (fun q => q.order_id == p.order_id)) = true
  · rw [if_pos hc] at h
    cases h
  · rw [if_neg hc] at h
    rcases Bool.or_eq_false_iff.mp (Bool.eq_false_iff.mpr hc) with ⟨h1, h2⟩
    exact ⟨(Option.some.injEq _ _ ▸ h).symm, h1, h2⟩

lemma countP_le_one_of_pairwise_order_id (l : List Payment)
    (h : l.Pairwise fun a b => a.order_id ≠ b.order_id) (oid : String) :
    l.countP (fun p => p.order_id == oid) ≤ 1 := by
  induction l with
  | nil => simp
  | cons x xs ih =>
    rcases List.pairwise_cons.mp h with ⟨hx, hxs⟩
    rw [List.countP_cons]
    cases hc : (x.order_id == oid) with
    | false => simpa [hc] using ih hxs
    | true =>
      have hzero : xs.countP (fun p => p.order_id == oid) = 0 := by
        rw [List.countP_eq_zero]
        intro q hq
        have hne := hx q hq
        have hx2 : x.order_id = oid := eq_of_beq hc
        simp only [beq_iff_eq]
        intro hqe
        exact hne (hx2.trans hqe.symm)
      simp [hc, hzero]

/-- C4 (counterexample): the claim says a payment-creation call for an order
that already has a non-terminal Payment fails with `ActivePaymentExists`; but
the code has no such error: with a pending Payment already recorded for the
order, a second `createPayPalPayment` fails only because the Mongo unique
index on `Payment.order_id` rejects the save, which the catch block maps to
the generic `saveError` (HTTP 500 `Failed to create PayPal payment`). -/
theorem claim_C4_counterexample :
    createPayPalPayment { orders := [sampleOrder], payments := [samplePayment] }
        "ORD1" true none (some "PP-REF-2") "PAY2"
      = (CreateResult.saveError,
         { orders := [sampleOrder], payments := [samplePayment] }) ∧
    CreateResult.saveError.httpStatus = 500 ∧
    samplePayment.status = PaymentStatus.pending := by decide

/-- C4 (amended): the at-most-one-payment invariant holds in a stronger form
— the unique index on `Payment.order_id` allows at most one Payment row per
order of ANY status, a property `createPayPalPayment` preserves — and a
creation call for an order that already has any Payment row fails without
mutating the database; but it fails with a generic error (404/400/500, the
500 being the duplicate-key save failure), never with a distinguished
`ActivePaymentExists` error, which does not exist in the code.  Under this
invariant two sequential creation calls cannot both succeed, since a
successful call records a Payment row for the order. -/
theorem claim_C4_amended_single_payment_guard (db : DB) (oid : String)
    (userId : Option String) (providerResp : Option String) (npid : String)
    (huniq : db.payments.Pairwise fun a b => a.order_id ≠ b.order_id) :
    (∀ anyOrder : String,
      db.payments.countP (fun p => p.order_id == anyOrder) ≤ 1) ∧
    ((createPayPalPayment db oid true userId providerResp npid).2.payments.Pairwise
      fun a b => a.order_id ≠ b.order_id) ∧
    ((∃ p ∈ db.payments, p.order_id = oid) →
      (createPayPalPayment db oid true userId providerResp npid).2 = db ∧
      ∀ r n2, (createPayPalPayment db oid true userId providerResp npid).1
        ≠ CreateResult.ok r n2) := by
  refine ⟨countP_le_one_of_pairwise_order_id db.payments huniq, ?_, ?_⟩
  · cases hfo : findOrderById db oid with
    | none =>
      rw [createPayPalPayment_of_order_none userId providerResp npid hfo]
      exact huniq
    | some o =>
      by_cases hs : o.status = OrderStatus.pending
      · cases providerResp with
        | none =>
          rw [createPayPalPayment_of_provider_none userId npid hfo hs]
          exact huniq
        | some provRef =>
          cases hsave : savePayment db (newPaymentDoc Provider.paypal o provRef npid) with
          | none =>
            rw [createPayPalPayment_of_save_fail userId provRef npid hfo hs hsave]
            exact huniq
          | some db1 =>
            rw [createPayPalPayment_of_save_ok userId provRef npid hfo hs hsave]
            obtain ⟨hdb1, _, hany⟩ := savePayment_eq_some hsave
            rw [show (updateOrder db1 oid (paymentRefOrderUpdate npid)).payments
                = db1.payments from rfl, hdb1]
            rw [show ({ db with payments := db.payments ++
                [newPaymentDoc Provider.paypal o provRef npid] } : DB).payments
                = db.payments ++ [newPaymentDoc Provider.paypal o provRef npid]
              from rfl]
            rw [List.pairwise_append]
            refine ⟨huniq, List.pairwise_singleton _ _, ?_⟩
            intro a ha b hb
            have hb1 : b = newPaymentDoc Provider.paypal o provRef npid :=
              List.mem_singleton.mp hb
            subst hb1
            have := (List.any_eq_false).mp hany a ha
            simpa using this
      · rw [createPayPalPayment_of_not_pending userId providerResp npid hfo hs]
        exact huniq
  · rintro ⟨p, hp, hpo⟩
    cases hfo : findOrderById db oid with
    | none =>
      rw [createPayPalPayment_of_order_none userId providerResp npid hfo]
      exact ⟨rfl, by intro r n2 hcon; cases hcon⟩
    | some o =>
      by_cases hs : o.status = OrderStatus.pending
      · have hoid : o.id = oid := by
          have hfo' := hfo
          unfold findOrderById at hfo'
          have hb := List.find?_some hfo'
          exact eq_of_beq hb
        cases providerResp with
        | none =>
          rw [createPayPalPayment_of_provider_none userId npid hfo hs]
          exact ⟨rfl, by intro r n2 hcon; cases hcon⟩
        | some provRef =>
          have hany : db.payments.any
              (fun q => q.order_id ==
                (newPaymentDoc Provider.paypal o provRef npid).order_id) = true := by
            rw [List.any_eq_true]
            refine ⟨p, hp, ?_⟩
            rw [show (newPaymentDoc Provider.paypal o provRef npid).order_id = o.id
              from rfl, hoid]
            exact beq_iff_eq.mpr hpo
          have hsave := savePayment_of_order_exists hany
          rw [createPayPalPayment_of_save_fail userId provRef npid hfo hs hsave]
          exact ⟨rfl, by intro r n2 hcon; cases hcon⟩
      · rw [createPayPalPayment_of_not_pending userId providerResp npid hfo hs]
        exact ⟨rfl, by intro r n2 hcon; cases hcon⟩

/-- C4 amended witness: concrete one-order database with an existing pending
payment. -/
theorem claim_C4_amended_witness :
    ([samplePayment].Pairwise fun a b => a.order_id ≠ b.order_id) ∧
    ((∀ anyOrder : String,
      ({ orders := [sampleOrder], payments := [samplePayment] } : DB).payments.countP
        (fun p => p.order_id == anyOrder) ≤ 1) ∧
     ((createPayPalPayment { orders := [sampleOrder], payments := [samplePayment] }
        "ORD1" true none (some "PP-REF-2") "PAY2").2.payments.Pairwise
        fun a b => a.order_id ≠ b.order_id) ∧
     ((∃ p ∈ ({ orders := [sampleOrder], payments := [samplePayment] } : DB).payments,
        p.order_id = "ORD1") →
      (createPayPalPayment { orders := [sampleOrder], payments := [samplePayment] }
        "ORD1" true none (some "PP-REF-2") "PAY2").2
        = { orders := [sampleOrder], payments := [samplePayment] } ∧
      ∀ r n2, (createPayPalPayment { orders := [sampleOrder], payments := [samplePayment] }
        "ORD1" true none (some "PP-REF-2") "PAY2").1 ≠ CreateResult.ok r n2)) :=
  ⟨by decide,
   claim_C4_amended_single_payment_guard
     { orders := [sampleOrder], payments := [samplePayment] }
     "ORD1" none (some "PP-REF-2") "PAY2" (by decide)⟩

/-- C8 (counterexample): the claim says that after a Payment reaches the
terminal `failed` status, a subsequent payment-creation call for the same
order succeeds with a second Payment row; but the failed handlers also set
the order to `cancelled`, so the subsequent creation is rejected with
400 `Order is not in pending status` and records nothing. -/
theorem claim_C8_counterexample :
    (applyEvent { orders := [sampleOrder], payments := [samplePayment] }
        (PaymentEvent.paypalDenied "PP-REF-1" "deny") 0).payments.map
        Payment.status = [PaymentStatus.failed] ∧
    (createPayPalPayment
        (applyEvent { orders := [sampleOrder], payments := [samplePayment] }
          (PaymentEvent.paypalDenied "PP-REF-1" "deny") 0)
        "ORD1" true none (some "PP-REF-9") "PAY2").1 = CreateResult.notPending ∧
    (createPayPalPayment
        (applyEvent { orders := [sampleOrder], payments := [samplePayment] }
          (PaymentEvent.paypalDenied "PP-REF-1" "deny") 0)
        "ORD1" true none (some "PP-REF-9") "PAY2").2
      = applyEvent { orders := [sampleOrder], payments := [samplePayment] }
          (PaymentEvent.paypalDenied "PP-REF-1" "deny") 0 := by decide

/-- C8 (amended): an Order cannot accumulate a second Payment row after a
failure: the FAILED webhook that moved the Payment to `failed` also set the
order to `cancelled` (no longer `pending`), so any subsequent
payment-creation call for that order returns 400 `Order is not in pending
status` and leaves the database unchanged; independently, the unique index
on `Payment.order_id` rejects a second row for an order in any case. -/
theorem claim_C8_amended_no_retry_after_failure (db : DB)
    (ref payload : String) (q : Payment) (o : Order) (userId : Option String)
    (providerResp : Option String) (npid : String)
    (hfind : findPaymentByProviderRef db ref = some q)
    (ho : findOrderById db q.order_id = some o) :
    (createPayPalPayment (handlePayPalPaymentFailed db ref payload)
        q.order_id true userId providerResp npid).1 = CreateResult.notPending ∧
    (createPayPalPayment (handlePayPalPaymentFailed db ref payload)
        q.order_id true userId providerResp npid).2
      = handlePayPalPaymentFailed db ref payload := by
  have h1 := handlePayPalPaymentFailed_of_find_some payload hfind
  have hoid : o.id = q.order_id := by
    have ho' := ho
    unfold findOrderById at ho'
    have hb := List.find?_some ho'
    exact eq_of_beq hb
  have hfo : findOrderById (handlePayPalPaymentFailed db ref payload) q.order_id
      = some (cancelledOrderUpdate o) := by
    rw [h1,
        findOrderById_updateOrder (updatePayment db q.id (failedPaymentUpdate payload))
          q.order_id q.order_id cancelledOrderUpdate (fun o => rfl),
        findOrderById_updatePayment, ho]
    simp [hoid]
  have hres := createPayPalPayment_of_not_pending
    userId providerResp npid hfo
    (by simp [cancelledOrderUpdate])
  exact ⟨by rw [hres], by rw [hres]⟩

/-- C8 amended witness: concrete database with one pending order and its
pending payment. -/
theorem claim_C8_amended_witness :
    (findPaymentByProviderRef { orders := [sampleOrder], payments := [samplePayment] }
        "PP-REF-1" = some samplePayment) ∧
    (findOrderById { orders := [sampleOrder], payments := [samplePayment] }
        samplePayment.order_id = some sampleOrder) ∧
    ((createPayPalPayment
        (handlePayPalPaymentFailed
          { orders := [sampleOrder], payments := [samplePayment] } "PP-REF-1" "deny")
        samplePayment.order_id true none (some "PP-REF-9") "PAY2").1
        = CreateResult.notPending ∧
     (createPayPalPayment
        (handlePayPalPaymentFailed
          { orders := [sampleOrder], payments := [samplePayment] } "PP-REF-1" "deny")
        samplePayment.order_id true none (some "PP-REF-9") "PAY2").2
        = handlePayPalPaymentFailed
            { orders := [sampleOrder], payments := [samplePayment] } "PP-REF-1" "deny") :=
  ⟨by decide, by decide,
   claim_C8_amended_no_retry_after_failure
     { orders := [sampleOrder], payments := [samplePayment] } "PP-REF-1" "deny"
     samplePayment sampleOrder none (some "PP-REF-9") "PAY2"
     (by decide) (by decide)⟩

/-- C6 amended witness: refund of a pending payment on a pending order. -/
theorem claim_C6_amended_witness :
    (findPaymentById { orders := [sampleOrder], payments := [samplePayment] }
        "PAY1" = some samplePayment) ∧
    (samplePayment.provider ≠ Provider.manual) ∧
    (findOrderById { orders := [sampleOrder], payments := [samplePayment] }
        samplePayment.order_id = some sampleOrder) ∧
    (refundPayment { orders := [sampleOrder], payments := [samplePayment] }
        true "PAY1" false "r" = (RefundResult.providerError,
          { orders := [sampleOrder], payments := [samplePayment] }) ∧
     (refundPayment { orders := [sampleOrder], payments := [samplePayment] }
        true "PAY1" true "r").1 = RefundResult.ok ∧
     (findPaymentById (refundPayment
        { orders := [sampleOrder], payments := [samplePayment] }
        true "PAY1" true "r").2 "PAY1").map Payment.status
        = some PaymentStatus.refunded ∧
     (findOrderById (refundPayment
        { orders := [sampleOrder], payments := [samplePayment] }
        true "PAY1" true "r").2 samplePayment.order_id).map Order.status
        = some OrderStatus.refunded) :=
  ⟨by decide, by decide, by decide,
   claim_C6_amended_refund_no_status_check
     { orders := [sampleOrder], payments := [samplePayment] } "PAY1" "r"
     samplePayment sampleOrder (by decide) (by decide) (by decide)⟩

/-- C9: after an initial token fetch at time `t0` with provider response `r`
(so the provider-reported expiry is `t0 + r.expires_in` seconds later), a
later `getAccessToken` call at time `now` returns the cached token — issuing
no fresh request and leaving the cache untouched — exactly when more than the
30-minute (1800 s) safety margin remains before the provider-reported expiry;
otherwise it fetches a fresh token and records its expiry as the issuance
time plus `expires_in − 1800` seconds.  The Nequi service's method is
identical, covering both provider clients.  (Times in ms; a JS empty-string
token is falsy, hence the nonempty-token hypothesis.) -/
theorem claim_C9_token_cache_margin (st : TokenState) (t0 now : Int)
    (r r2 : TokenResponse) (hne : r.access_token ≠ "")
    (hst : st = (PayPalService.getAccessToken
        { accessToken := none, tokenExpiry := none } t0 r).state) :
    ((PayPalService.getAccessToken st now r2).refreshed = false
      ↔ t0 + r.expires_in * 1000 - now > 1800 * 1000) ∧
    ((PayPalService.getAccessToken st now r2).refreshed = false →
      (PayPalService.getAccessToken st now r2).token = r.access_token ∧
      (PayPalService.getAccessToken st now r2).state = st) ∧
    ((PayPalService.getAccessToken st now r2).refreshed = true →
      (PayPalService.getAccessToken st now r2).state.tokenExpiry
        = some (now + (r2.expires_in - 1800) * 1000)) ∧
    NequiService.getAccessToken st now r2 = PayPalService.getAccessToken st now r2 := by
  subst hst
  have hst0 : (PayPalService.getAccessToken
      { accessToken := none, tokenExpiry := none } t0 r).state
      = { accessToken := some r.access_token,
          tokenExpiry := some (t0 + (r.expires_in - 1800) * 1000) } := rfl
  rw [hst0]
  by_cases hgt : t0 + (r.expires_in - 1800) * 1000 > now
  · have hres : PayPalService.getAccessToken
        { accessToken := some r.access_token,
          tokenExpiry := some (t0 + (r.expires_in - 1800) * 1000) } now r2
        = { token := r.access_token,
            state := { accessToken := some r.access_token,
                       tokenExpiry := some (t0 + (r.expires_in - 1800) * 1000) },
            refreshed := false } := by
      unfold PayPalService.getAccessToken
      simp [hne, hgt]
    rw [hres]
    refine ⟨?_, fun _ => ⟨rfl, rfl⟩, fun hcon => Bool.noConfusion hcon, ?_⟩
    · simp only [true_iff]
      omega
    · unfold NequiService.getAccessToken
      simp [hne, hgt]
  · have hres : PayPalService.getAccessToken
        { accessToken := some r.access_token,
          tokenExpiry := some (t0 + (r.expires_in - 1800) * 1000) } now r2
        = { token := r2.access_token,
            state := { accessToken := some r2.access_token,
                       tokenExpiry := some (now + (r2.expires_in - 1800) * 1000) },
            refreshed := true } := by
      unfold PayPalService.getAccessToken
      simp [hne, hgt]
    rw [hres]
    refine ⟨?_, fun hcon => Bool.noConfusion hcon, fun _ => rfl, ?_⟩
    · simp only [Bool.true_eq_false, false_iff]
      omega
    · unfold NequiService.getAccessToken
      simp [hne, hgt]

/-- C9 witness: a fetch at t0 = 0 with a 9-hour token, rechecked at
now = 1000 ms. -/
theorem claim_C9_token_cache_margin_witness :
    (("tok" : String) ≠ "") ∧
    (((PayPalService.getAccessToken
        { accessToken := none, tokenExpiry := none } 0
        { access_token := "tok", expires_in := 32400 }).state : TokenState)
      = (PayPalService.getAccessToken
        { accessToken := none, tokenExpiry := none } 0
        { access_token := "tok", expires_in := 32400 }).state) ∧
    (((PayPalService.getAccessToken
        (PayPalService.getAccessToken
          { accessToken := none, tokenExpiry := none } 0
          { access_token := "tok", expires_in := 32400 }).state 1000
        { access_token := "tok2", expires_in := 32400 }).refreshed = false
      ↔ (0 : Int) + (32400 : Int) * 1000 - 1000 > 1800 * 1000) ∧
     ((PayPalService.getAccessToken
        (PayPalService.getAccessToken
          { accessToken := none, tokenExpiry := none } 0
          { access_token := "tok", expires_in := 32400 }).state 1000
        { access_token := "tok2", expires_in := 32400 }).refreshed = false →
      (PayPalService.getAccessToken
        (PayPalService.getAccessToken
          { accessToken := none, tokenExpiry := none } 0
          { access_token := "tok", expires_in := 32400 }).state 1000
        { access_token := "tok2", expires_in := 32400 }).token = "tok" ∧
      (PayPalService.getAccessToken
        (PayPalService.getAccessToken
          { accessToken := none, tokenExpiry := none } 0
          { access_token := "tok", expires_in := 32400 }).state 1000
        { access_token := "tok2", expires_in := 32400 }).state
        = (PayPalService.getAccessToken
            { accessToken := none, tokenExpiry := none } 0
            { access_token := "tok", expires_in := 32400 }).state) ∧
     ((PayPalService.getAccessToken
        (PayPalService.getAccessToken
          { accessToken := none, tokenExpiry := none } 0
          { access_token := "tok", expires_in := 32400 }).state 1000
        { access_token := "tok2", expires_in := 32400 }).refreshed = true →
      (PayPalService.getAccessToken
        (PayPalService.getAccessToken
          { accessToken := none, tokenExpiry := none } 0
          { access_token := "tok", expires_in := 32400 }).state 1000
        { access_token := "tok2", expires_in := 32400 }).state.tokenExpiry
        = some ((1000 : Int) + ((32400 : Int) - 1800) * 1000)) ∧
     NequiService.getAccessToken
        (PayPalService.getAccessToken
          { accessToken := none, tokenExpiry := none } 0
          { access_token := "tok", expires_in := 32400 }).state 1000
        { access_token := "tok2", expires_in := 32400 }
      = PayPalService.getAccessToken
          (PayPalService.getAccessToken
            { accessToken := none, tokenExpiry := none } 0
            { access_token := "tok", expires_in := 32400 }).state 1000
          { access_token := "tok2", expires_in := 32400 }) :=
  ⟨by decide, rfl,
   claim_C9_token_cache_margin
     (PayPalService.getAccessToken
       { accessToken := none, tokenExpiry := none } 0
       { access_token := "tok", expires_in := 32400 }).state
     0 1000 { access_token := "tok", expires_in := 32400 }
     { access_token := "tok2", expires_in := 32400 } (by decide) rfl⟩

/-! ## Order totals (createOrder) -/

/-- In exact arithmetic, `calculateTax` is the half-up rounding of
`0.19 × subtotal`. -/
lemma calculateTax_eq_round (s : Nat) :
    ((calculateTax s : ℕ) : ℤ) = round ((19 * (s : ℚ)) / 100) := by
  unfold calculateTax
  rw [round_eq]
  have h : (19 * (s : ℚ)) / 100 + 1 / 2
      = (((19 * s + 50 : ℕ) : ℤ) : ℚ) / ((100 : ℕ) : ℚ) := by
    push_cast
    ring
  rw [h, Rat.floor_intCast_div_natCast]
  exact Int.natCast_div (19 * s + 50) 100

lemma validateItems_sound (catalog : List Product) :
    ∀ (items : List OrderItemReq) (vis : List ValidatedItem),
      validateItems catalog items = some vis →
      ∀ v ∈ vis, ∃ item ∈ items, ∃ p, p ∈ catalog ∧ p.id = v.product_id ∧
        p.active = true ∧ v.price_cop = p.price_cop ∧ v.quantity = item.quantity := by
  intro items
  induction items with
  | nil =>
    intro vis h v hv
    unfold validateItems at h
    cases h
    cases hv
  | cons item rest ih =>
    intro vis h v hv
    unfold validateItems at h
    cases hfind : catalog.find? (fun p => p.id == item.product_id && p.active) with
    | none =>
      rw [hfind] at h
      cases h
    | some product =>
      rw [hfind] at h
      replace h : (match product.inventory with
          | some inv =>
            if inv < item.quantity then none
            else
              (validateItems catalog rest).map fun vis =>
                ({ product_id := product.id, title := product.title,
                   price_cop := product.price_cop, quantity := item.quantity,
                   sku := product.sku } : ValidatedItem) :: vis
          | none =>
            (validateItems catalog rest).map fun vis =>
              ({ product_id := product.id, title := product.title,
                 price_cop := product.price_cop, quantity := item.quantity,
                 sku := product.sku } : ValidatedItem) :: vis) = some vis := h
      have hmem : product ∈ catalog := List.mem_of_find?_eq_some hfind
      have hpred := List.find?_some hfind
      have hprod : product.id = item.product_id ∧ product.active = true := by
        have hand := (Bool.and_eq_true _ _).mp hpred
        exact ⟨eq_of_beq hand.1, hand.2⟩
      cases hinv : product.inventory with
      | some inv =>
        rw [hinv] at h
        replace h : (if inv < item.quantity then none
            else (validateItems catalog rest).map fun vis =>
              ({ product_id := product.id, title := product.title,
                 price_cop := product.price_cop, quantity := item.quantity,
                 sku := product.sku } : ValidatedItem) :: vis) = some vis := h
        by_cases hlt : inv < item.quantity
        · rw [if_pos hlt] at h
          cases h
        · rw [if_neg hlt] at h
          obtain ⟨vis0, hvis0, hcons⟩ := Option.map_eq_some'.mp h
          rcases List.mem_cons.mp (hcons ▸ hv) with hveq | hvmem
          · subst hveq
            exact ⟨item, List.mem_cons_self _ _, product, hmem, rfl,
                   hprod.2, rfl, rfl⟩
          · obtain ⟨item2, hitem2, hrest⟩ := ih vis0 hvis0 v hvmem
            exact ⟨item2, List.mem_cons_of_mem _ hitem2, hrest⟩
      | none =>
        rw [hinv] at h
        replace h : ((validateItems catalog rest).map fun vis =>
            ({ product_id := product.id, title := product.title,
               price_cop := product.price_cop, quantity := item.quantity,
               sku := product.sku } : ValidatedItem) :: vis) = some vis := h
        obtain ⟨vis0, hvis0, hcons⟩ := Option.map_eq_some'.mp h
        rcases List.mem_cons.mp (hcons ▸ hv) with hveq | hvmem
        · subst hveq
          exact ⟨item, List.mem_cons_self _ _, product, hmem, rfl,
                 hprod.2, rfl, rfl⟩
        · obtain ⟨item2, hitem2, hrest⟩ := ih vis0 hvis0 v hvmem
          exact ⟨item2, List.mem_cons_of_mem _ hitem2, hrest⟩

/-- The item-validation loop never reads the client-supplied `price_cop` of a
request item: overwriting it arbitrarily changes nothing. -/
lemma validateItems_ignores_client_price (catalog : List Product)
    (f : OrderItemReq → Nat) :
    ∀ items : List OrderItemReq,
      validateItems catalog (items.map fun it => { it with price_cop := f it })
        = validateItems catalog items := by
  intro items
  induction items with
  | nil => rfl
  | cons item rest ih =>
    rw [List.map_cons]
    unfold validateItems
    rw [ih]

/-- C10: every successfully created order carries
`tax_cop = calculateTax subtotal_cop` — the half-up rounding of 19% IVA —
`total_cop = subtotal_cop + tax_cop`, and `subtotal_cop` the sum of stored
price × quantity over the validated items, each of whose prices comes from
the stored catalog product; the client-supplied item price is never read. -/
theorem claim_C10_order_totals (catalog : List Product)
    (items : List OrderItemReq) (oid : String) (userId : Option String)
    (o : Order) (vis : List ValidatedItem)
    (h : createOrder catalog items oid userId = some (o, vis)) :
    o.tax_cop = calculateTax o.subtotal_cop ∧
    ((o.tax_cop : ℕ) : ℤ) = round ((19 * (o.subtotal_cop : ℚ)) / 100) ∧
    o.total_cop = o.subtotal_cop + o.tax_cop ∧
    o.subtotal_cop = (vis.map fun v => v.price_cop * v.quantity).sum ∧
    (∀ v ∈ vis, ∃ item ∈ items, ∃ p, p ∈ catalog ∧ p.id = v.product_id ∧
      p.active = true ∧ v.price_cop = p.price_cop ∧ v.quantity = item.quantity) ∧
    (∀ f : OrderItemReq → Nat,
      createOrder catalog (items.map fun it => { it with price_cop := f it })
        oid userId = some (o, vis)) := by
  unfold createOrder at h
  by_cases he : items.isEmpty
  · rw [if_pos he] at h
    cases h
  · rw [if_neg he] at h
    cases hvi : validateItems catalog items with
    | none =>
      rw [hvi] at h
      cases h
    | some vis1 =>
      rw [hvi] at h
      replace h : some
          (({ id := oid, user_id := userId,
              subtotal_cop := (List.map (fun v => v.price_cop * v.quantity) vis1).sum,
              tax_cop := calculateTax
                (List.map (fun v => v.price_cop * v.quantity) vis1).sum,
              total_cop := (List.map (fun v => v.price_cop * v.quantity) vis1).sum
                + calculateTax (List.map (fun v => v.price_cop * v.quantity) vis1).sum,
              currency := "COP", status := OrderStatus.pending, payment_id := none,
              payment_status := PaymentStatus.pending, paid_at := none } : Order),
            vis1)
          = some (o, vis) := h
      have h2 := Option.some.inj h
      rw [Prod.mk.injEq] at h2
      obtain ⟨ho, hvis⟩ := h2
      subst ho
      subst hvis
      refine ⟨rfl, calculateTax_eq_round _, rfl, rfl,
        validateItems_sound catalog items vis1 hvi, ?_⟩
      intro f
      unfold createOrder
      have hem : (items.map fun it => { it with price_cop := f it }).isEmpty
          = items.isEmpty := by
        cases items with
        | nil => rfl
        | cons a l => rfl
      rw [validateItems_ignores_client_price catalog f items, hvi, hem, if_neg he]

/-! ## Round trip: create payment, then provider reports COMPLETED -/

lemma find?_append_of_none {α : Type} (p : α → Bool) {l1 : List α}
    (h : l1.find? p = none) (l2 : List α) :
    (l1 ++ l2).find? p = l2.find? p := by
  rw [List.find?_append, h]
  rfl

/-- C7: starting from a pending order with no Payment row, no clash on the
fresh payment id and a provider reference unseen so far,
`createPayPalPayment` succeeds — recording a pending Payment that carries the
provider correlation id and setting the order's `payment_id` to it — and a
subsequent signature-verified COMPLETED webhook for that provider reference
leaves the Order `paid`, its `payment_id` equal to the completed Payment's
id, and that Payment `completed`. -/
theorem claim_C7_round_trip (db : DB) (oid : String) (o : Order)
    (provRef npid payload : String) (now : Int) (userId : Option String)
    (ho : findOrderById db oid = some o)
    (hpend : o.status = OrderStatus.pending)
    (hfreshid : ∀ q ∈ db.payments, q.id ≠ npid)
    (hnoorder : ∀ q ∈ db.payments, q.order_id ≠ o.id)
    (hfreshref : ∀ q ∈ db.payments, q.provider_payment_id ≠ some provRef) :
    (createPayPalPayment db oid true userId (some provRef) npid).1
      = CreateResult.ok provRef npid ∧
    (findOrderById
        (handlePayPalPaymentCompleted
          (createPayPalPayment db oid true userId (some provRef) npid).2
          provRef payload now) oid).map Order.status
      = some OrderStatus.paid ∧
    (findOrderById
        (handlePayPalPaymentCompleted
          (createPayPalPayment db oid true userId (some provRef) npid).2
          provRef payload now) oid).map Order.payment_id
      = some (some npid) ∧
    (findPaymentById
        (handlePayPalPaymentCompleted
          (createPayPalPayment db oid true userId (some provRef) npid).2
          provRef payload now) npid).map Payment.status
      = some PaymentStatus.completed := by
  have hoid : o.id = oid := by
    have ho' := ho
    unfold findOrderById at ho'
    have hb := List.find?_some ho'
    exact eq_of_beq hb
  have hany1 : db.payments.any
      (fun q => q.id == (newPaymentDoc Provider.paypal o provRef npid).id)
        = false := by
    rw [List.any_eq_false]
    intro q hq
    simp only [newPaymentDoc, beq_iff_eq]
    exact hfreshid q hq
  have hany2 : db.payments.any
      (fun q => q.order_id ==
        (newPaymentDoc Provider.paypal o provRef npid).order_id) = false := by
    rw [List.any_eq_false]
    intro q hq
    simp only [newPaymentDoc, beq_iff_eq]
    exact hnoorder q hq
  have hsave : savePayment db (newPaymentDoc Provider.paypal o provRef npid)
      = some { db with payments :=
          db.payments ++ [newPaymentDoc Provider.paypal o provRef npid] } := by
    unfold savePayment
    rw [hany1, hany2]
    rfl
  have hres := createPayPalPayment_of_save_ok userId provRef npid ho hpend hsave
  have hres2 : (createPayPalPayment db oid true userId (some provRef) npid).2
      = updateOrder
          { db with payments :=
              db.payments ++ [newPaymentDoc Provider.paypal o provRef npid] }
          oid (paymentRefOrderUpdate npid) := by
    rw [hres]
  have hnone : db.payments.find?
      (fun q => q.provider_payment_id == some provRef) = none := by
    rw [List.find?_eq_none]
    intro q hq
    simp only [beq_iff_eq]
    exact hfreshref q hq
  have hfind2 : findPaymentByProviderRef
      (createPayPalPayment db oid true userId (some provRef) npid).2 provRef
      = some (newPaymentDoc Provider.paypal o provRef npid) := by
    rw [hres2]
    rw [findPaymentByProviderRef_updateOrder]
    show ((db.payments ++ [newPaymentDoc Provider.paypal o provRef npid]).find?
      fun q => q.provider_payment_id == some provRef)
      = some (newPaymentDoc Provider.paypal o provRef npid)
    rw [find?_append_of_none _ hnone]
    simp [newPaymentDoc]
  have hdone := handlePayPalPaymentCompleted_of_find_pending payload now hfind2 rfl
  rw [hdone]
  have hfo2 : findOrderById
      (updatePayment (createPayPalPayment db oid true userId (some provRef) npid).2
        (newPaymentDoc Provider.paypal o provRef npid).id
        (completedPaymentUpdate payload now)) oid
      = some (paymentRefOrderUpdate npid o) := by
    rw [findOrderById_updatePayment, hres2,
        findOrderById_updateOrder
          { db with payments :=
              db.payments ++ [newPaymentDoc Provider.paypal o provRef npid] }
          oid oid (paymentRefOrderUpdate npid) (fun o => rfl)]
    rw [show findOrderById
        { db with payments :=
            db.payments ++ [newPaymentDoc Provider.paypal o provRef npid] } oid
        = findOrderById db oid from rfl, ho]
    simp [hoid]
  have hfo3 : findOrderById
      (updateOrder
        (updatePayment (createPayPalPayment db oid true userId (some provRef) npid).2
          (newPaymentDoc Provider.paypal o provRef npid).id
          (completedPaymentUpdate payload now))
        (newPaymentDoc Provider.paypal o provRef npid).order_id
        (paidOrderUpdate now)) oid
      = some (paidOrderUpdate now (paymentRefOrderUpdate npid o)) := by
    rw [findOrderById_updateOrder _
          (newPaymentDoc Provider.paypal o provRef npid).order_id oid
          (paidOrderUpdate now) (fun o => rfl), hfo2]
    have heq : (paymentRefOrderUpdate npid o).id
        = (newPaymentDoc Provider.paypal o provRef npid).order_id := by
      simp [paymentRefOrderUpdate, newPaymentDoc]
    simp [heq]
  have hfp3 : findPaymentById
      (updateOrder
        (updatePayment (createPayPalPayment db oid true userId (some provRef) npid).2
          (newPaymentDoc Provider.paypal o provRef npid).id
          (completedPaymentUpdate payload now))
        (newPaymentDoc Provider.paypal o provRef npid).order_id
        (paidOrderUpdate now)) npid
      = some (completedPaymentUpdate payload now
          (newPaymentDoc Provider.paypal o provRef npid)) := by
    rw [findPaymentById_updateOrder,
        findPaymentById_updatePayment _
          (newPaymentDoc Provider.paypal o provRef npid).id npid
          (completedPaymentUpdate payload now) (fun p => rfl)]
    rw [hres2]
    rw [show findPaymentById
        (updateOrder
          { db with payments :=
              db.payments ++ [newPaymentDoc Provider.paypal o provRef npid] }
          oid (paymentRefOrderUpdate npid)) npid
        = ((db.payments ++ [newPaymentDoc Provider.paypal o provRef npid]).find?
            fun q => q.id == npid) from rfl]
    have hnone2 : db.payments.find? (fun q => q.id == npid) = none := by
      rw [List.find?_eq_none]
      intro q hq
      simp only [beq_iff_eq]
      exact hfreshid q hq
    rw [find?_append_of_none _ hnone2]
    simp [newPaymentDoc]
  refine ⟨by rw [hres], ?_, ?_, ?_⟩
  · rw [hfo3]
    rfl
  · rw [hfo3]
    rfl
  · rw [hfp3]
    rfl

/-- C7 witness: a pending order with an empty payments collection. -/
theorem claim_C7_round_trip_witness :
    (findOrderById { orders := [sampleOrder], payments := [] } "ORD1"
      = some sampleOrder) ∧
    (sampleOrder.status = OrderStatus.pending) ∧
    (∀ q ∈ ({ orders := [sampleOrder], payments := [] } : DB).payments,
      q.id ≠ "PAY9") ∧
    (∀ q ∈ ({ orders := [sampleOrder], payments := [] } : DB).payments,
      q.order_id ≠ sampleOrder.id) ∧
    (∀ q ∈ ({ orders := [sampleOrder], payments := [] } : DB).payments,
      q.provider_payment_id ≠ some "PP-REF-7") ∧
    ((createPayPalPayment { orders := [sampleOrder], payments := [] }
        "ORD1" true none (some "PP-REF-7") "PAY9").1
      = CreateResult.ok "PP-REF-7" "PAY9" ∧
     (findOrderById
        (handlePayPalPaymentCompleted
          (createPayPalPayment { orders := [sampleOrder], payments := [] }
            "ORD1" true none (some "PP-REF-7") "PAY9").2
          "PP-REF-7" "captured" 42) "ORD1").map Order.status
      = some OrderStatus.paid ∧
     (findOrderById
        (handlePayPalPaymentCompleted
          (createPayPalPayment { orders := [sampleOrder], payments := [] }
            "ORD1" true none (some "PP-REF-7") "PAY9").2
          "PP-REF-7" "captured" 42) "ORD1").map Order.payment_id
      = some (some "PAY9") ∧
     (findPaymentById
        (handlePayPalPaymentCompleted
          (createPayPalPayment { orders := [sampleOrder], payments := [] }
            "ORD1" true none (some "PP-REF-7") "PAY9").2
          "PP-REF-7" "captured" 42) "PAY9").map Payment.status
      = some PaymentStatus.completed) :=
  ⟨by decide, by decide, (by intro q hq; cases hq), (by intro q hq; cases hq),
   (by intro q hq; cases hq),
   claim_C7_round_trip { orders := [sampleOrder], payments := [] } "ORD1"
     sampleOrder "PP-REF-7" "PAY9" "captured" 42 none (by decide) (by decide)
     (by intro q hq; cases hq) (by intro q hq; cases hq)
     (by intro q hq; cases hq)⟩

/-- A stored product used in the C10 witness. -/
def sampleProduct : Product :=
  { id := "P1", title := "T", price_cop := 100000, sku := "SKU1",
    inventory := some 5, active := true }

/-- The order produced by the C10 witness request. -/
def sampleCreatedOrder : Order :=
  { id := "O2", user_id := none, subtotal_cop := 100000, tax_cop := 19000,
    total_cop := 119000, currency := "COP", status := OrderStatus.pending,
    payment_id := none, payment_status := PaymentStatus.pending,
    paid_at := none }

/-- The validated item of the C10 witness (the client sent price 999, the
stored price 100000 is used). -/
def sampleValidatedItem : ValidatedItem :=
  { product_id := "P1", title := "T", price_cop := 100000, quantity := 1,
    sku := "SKU1" }

/-- C10 witness: a one-product catalog and a one-item request whose
client-supplied price (999) differs from the stored price (100000). -/
theorem claim_C10_order_totals_witness :
    (createOrder [sampleProduct]
        [{ product_id := "P1", quantity := 1, price_cop := 999 }] "O2" none
      = some (sampleCreatedOrder, [sampleValidatedItem])) ∧
    (sampleCreatedOrder.tax_cop = calculateTax sampleCreatedOrder.subtotal_cop ∧
     ((sampleCreatedOrder.tax_cop : ℕ) : ℤ)
        = round ((19 * (sampleCreatedOrder.subtotal_cop : ℚ)) / 100) ∧
     sampleCreatedOrder.total_cop
        = sampleCreatedOrder.subtotal_cop + sampleCreatedOrder.tax_cop ∧
     sampleCreatedOrder.subtotal_cop
        = ([sampleValidatedItem].map fun v => v.price_cop * v.quantity).sum ∧
     (∀ v ∈ [sampleValidatedItem],
        ∃ item ∈ [({ product_id := "P1", quantity := 1, price_cop := 999 }
            : OrderItemReq)],
          ∃ p, p ∈ [sampleProduct] ∧ p.id = v.product_id ∧ p.active = true ∧
            v.price_cop = p.price_cop ∧ v.quantity = item.quantity) ∧
     (∀ f : OrderItemReq → Nat,
        createOrder [sampleProduct]
          ([({ product_id := "P1", quantity := 1, price_cop := 999 }
              : OrderItemReq)].map fun it => { it with price_cop := f it })
          "O2" none = some (sampleCreatedOrder, [sampleValidatedItem]))) :=
  ⟨by decide,
   claim_C10_order_totals [sampleProduct]
     [{ product_id := "P1", quantity := 1, price_cop := 999 }] "O2" none
     sampleCreatedOrder [sampleValidatedItem] (by decide)⟩

end WebLook
